import Mathlib

/-!
Verification of the `whitelight` ANSI text-styling library (src/lib.rs).

The Rust source is shallowly embedded: the `Color` enum, the `RgbColor`
struct, the `Style` builder with its optional color slots and boolean
flags, the escape-sequence serialization (`format_prefix` /
`format_suffix`), the `ColoredString` renderer (`Display::fmt`), the
convenience free functions (`red`, ..., `rgb`, `on_rgb`) and the
blanket `Colorize` implementation. `u8` channel values carry no
arithmetic here (they are only printed in decimal), so they are
embedded as `Nat`; where a claim ranges over byte triples the bound is
irrelevant to the statement.
-/

namespace Whitelight

/-- The 16 standard terminal colors (Rust `enum Color`). -/
inductive Color where
  | Black | Red | Green | Yellow | Blue | Magenta | Cyan | White
  | BrightBlack | BrightRed | BrightGreen | BrightYellow
  | BrightBlue | BrightMagenta | BrightCyan | BrightWhite
  deriving DecidableEq, Repr, Fintype

/-- 24-bit RGB color (Rust `struct RgbColor`); channels are printed in
decimal only, so they are embedded as `Nat`. -/
structure RgbColor where
  r : Nat
  g : Nat
  b : Nat
  deriving DecidableEq, Repr

/-- Rust `RgbColor::new`. -/
def RgbColor.new (r g b : Nat) : RgbColor := ⟨r, g, b⟩

/-- Rust `Color::fg_code`: ANSI foreground code of a named color. -/
def Color.fg_code : Color → Nat
  | .Black => 30
  | .Red => 31
  | .Green => 32
  | .Yellow => 33
  | .Blue => 34
  | .Magenta => 35
  | .Cyan => 36
  | .White => 37
  | .BrightBlack => 90
  | .BrightRed => 91
  | .BrightGreen => 92
  | .BrightYellow => 93
  | .BrightBlue => 94
  | .BrightMagenta => 95
  | .BrightCyan => 96
  | .BrightWhite => 97

/-- Rust `Color::bg_code`: ANSI background code of a named color. -/
def Color.bg_code : Color → Nat
  | .Black => 40
  | .Red => 41
  | .Green => 42
  | .Yellow => 43
  | .Blue => 44
  | .Magenta => 45
  | .Cyan => 46
  | .White => 47
  | .BrightBlack => 100
  | .BrightRed => 101
  | .BrightGreen => 102
  | .BrightYellow => 103
  | .BrightBlue => 104
  | .BrightMagenta => 105
  | .BrightCyan => 106
  | .BrightWhite => 107

/-- Rust `struct Style`: two optional named-color slots, two optional
RGB slots, three boolean flags. -/
structure Style where
  fg_color : Option Color
  bg_color : Option Color
  fg_rgb_color : Option RgbColor
  bg_rgb_color : Option RgbColor
  bold : Bool
  italic : Bool
  underline : Bool
  deriving DecidableEq, Repr

/-- Rust `impl Default for Style`: every slot empty, every flag false. -/
def Style.default : Style :=
  { fg_color := none
    bg_color := none
    fg_rgb_color := none
    bg_rgb_color := none
    bold := false
    italic := false
    underline := false }

/-- Rust `Style::new`. -/
def Style.new : Style := Style.default

/-- Rust `Style::fg`: set named foreground, clearing the RGB foreground. -/
def Style.fg (s : Style) (color : Color) : Style :=
  { s with fg_color := some color, fg_rgb_color := none }

/-- Rust `Style::bg`: set named background, clearing the RGB background. -/
def Style.bg (s : Style) (color : Color) : Style :=
  { s with bg_color := some color, bg_rgb_color := none }

/-- Rust `Style::fg_rgb`: set RGB foreground, clearing the named foreground. -/
def Style.fg_rgb (s : Style) (r g b : Nat) : Style :=
  { s with fg_rgb_color := some (RgbColor.new r g b), fg_color := none }

/-- Rust `Style::bg_rgb`: set RGB background, clearing the named background. -/
def Style.bg_rgb (s : Style) (r g b : Nat) : Style :=
  { s with bg_rgb_color := some (RgbColor.new r g b), bg_color := none }

/-- Rust `Style::bold` (the builder method; primed to avoid clashing with
the field projection). -/
def Style.bold' (s : Style) : Style := { s with bold := true }

/-- Rust `Style::italic` (builder method). -/
def Style.italic' (s : Style) : Style := { s with italic := true }

/-- Rust `Style::underline` (builder method). -/
def Style.underline' (s : Style) : Style := { s with underline := true }

/-- The `38;2;R;G;B` fragment pushed for an RGB foreground. -/
def rgbFgFrag (c : RgbColor) : String :=
  "38;2;" ++ toString c.r ++ ";" ++ toString c.g ++ ";" ++ toString c.b

/-- The `48;2;R;G;B` fragment pushed for an RGB background. -/
def rgbBgFrag (c : RgbColor) : String :=
  "48;2;" ++ toString c.r ++ ";" ++ toString c.g ++ ";" ++ toString c.b

/-- The first two pushes of `Style::format_prefix`: named foreground
code, then RGB foreground fragment. -/
def Style.fgCodes (s : Style) : List String :=
  (match s.fg_color with
   | some fg => [toString (Color.fg_code fg)]
   | none => []) ++
  (match s.fg_rgb_color with
   | some rgb => [rgbFgFrag rgb]
   | none => [])

/-- The remaining pushes of `Style::format_prefix`: named background,
RGB background, bold, italic, underline. -/
def Style.restCodes (s : Style) : List String :=
  (match s.bg_color with
   | some bg => [toString (Color.bg_code bg)]
   | none => []) ++
  (match s.bg_rgb_color with
   | some rgb => [rgbBgFrag rgb]
   | none => []) ++
  (if s.bold then ["1"] else []) ++
  (if s.italic then ["3"] else []) ++
  (if s.underline then ["4"] else [])

/-- The `codes` vector built by `Style::format_prefix`, in the exact
push order of the source: named fg, RGB fg, named bg, RGB bg, bold,
italic, underline. -/
def Style.codes (s : Style) : List String :=
  Style.fgCodes s ++ Style.restCodes s

/-- The ESC control byte 0x1B as a character. -/
def escChar : Char := Char.ofNat 0x1B

/-- Rust `Style::format_prefix`: empty when no code was pushed, otherwise
the codes joined with `;` and wrapped as `ESC [ ... m`. -/
def Style.format_prefix (s : Style) : String :=
  let codes := Style.codes s
  if codes.isEmpty then ""
  else String.singleton escChar ++ "[" ++ String.intercalate ";" codes ++ "m"

/-- Rust `Style::format_suffix`: the fixed reset sequence `ESC [ 0 m`. -/
def Style.format_suffix : String := String.singleton escChar ++ "[0m"

/-- Rust `struct ColoredString`: owned text plus a frozen style. -/
structure ColoredString where
  text : String
  style : Style
  deriving DecidableEq, Repr

/-- Rust `Style::paint`: bind a copy of the style to the text. -/
def Style.paint (s : Style) (text : String) : ColoredString :=
  { text := text, style := s }

/-- Rust `impl fmt::Display for ColoredString`: raw text when the style's
escape sequence is empty, otherwise wrapped between it and the reset
suffix. -/
def ColoredString.render (cs : ColoredString) : String :=
  let pre := Style.format_prefix cs.style
  if pre.isEmpty then cs.text
  else pre ++ cs.text ++ Style.format_suffix

/-- Rust `impl AsRef<str> for ColoredString`: the raw bound text. -/
def ColoredString.as_ref (cs : ColoredString) : String := cs.text

/-- Free function `red`. -/
def red (text : String) : ColoredString :=
  Style.paint (Style.fg Style.new Color.Red) text

/-- Free function `green`. -/
def green (text : String) : ColoredString :=
  Style.paint (Style.fg Style.new Color.Green) text

/-- Free function `blue`. -/
def blue (text : String) : ColoredString :=
  Style.paint (Style.fg Style.new Color.Blue) text

/-- Free function `yellow`. -/
def yellow (text : String) : ColoredString :=
  Style.paint (Style.fg Style.new Color.Yellow) text

/-- Free function `magenta`. -/
def magenta (text : String) : ColoredString :=
  Style.paint (Style.fg Style.new Color.Magenta) text

/-- Free function `cyan`. -/
def cyan (text : String) : ColoredString :=
  Style.paint (Style.fg Style.new Color.Cyan) text

/-- Free function `white`. -/
def white (text : String) : ColoredString :=
  Style.paint (Style.fg Style.new Color.White) text

/-- Free function `black`. -/
def black (text : String) : ColoredString :=
  Style.paint (Style.fg Style.new Color.Black) text

/-- Free function `rgb`. -/
def rgb (r g b : Nat) (text : String) : ColoredString :=
  Style.paint (Style.fg_rgb Style.new r g b) text

/-- Free function `on_rgb`. -/
def on_rgb (r g b : Nat) (text : String) : ColoredString :=
  Style.paint (Style.bg_rgb Style.new r g b) text

/-- One builder operation on a `Style` (the seven fluent setters). -/
inductive Op where
  | fg (c : Color)
  | bg (c : Color)
  | fgRgb (r g b : Nat)
  | bgRgb (r g b : Nat)
  | bold
  | italic
  | underline
  deriving DecidableEq, Repr

/-- Apply one builder operation, exactly as the corresponding Rust
method does. -/
def applyOp (s : Style) : Op → Style
  | .fg c => Style.fg s c
  | .bg c => Style.bg s c
  | .fgRgb r g b => Style.fg_rgb s r g b
  | .bgRgb r g b => Style.bg_rgb s r g b
  | .bold => Style.bold' s
  | .italic => Style.italic' s
  | .underline => Style.underline' s

/-- Apply a finite sequence of builder operations left to right (a
fluent chain). -/
def applyOps (s : Style) (ops : List Op) : Style :=
  ops.foldl applyOp s

/-- The field channel an operation writes: `fg`/`fg_rgb` both target
the foreground pair, `bg`/`bg_rgb` the background pair, each flag its
own field. -/
def Op.chan : Op → Nat
  | .fg _ => 0
  | .fgRgb _ _ _ => 0
  | .bg _ => 1
  | .bgRgb _ _ _ => 1
  | .bold => 2
  | .italic => 3
  | .underline => 4

/-- The per-channel exclusivity invariant: a named and an RGB color
are never both stored for the same channel. -/
def chanOk (s : Style) : Prop :=
  (s.fg_color = none ∨ s.fg_rgb_color = none) ∧
  (s.bg_color = none ∨ s.bg_rgb_color = none)

/-- One `Colorize` capability method together with its arguments. -/
inductive COp where
  | red | green | blue | yellow | magenta | cyan | white | black
  | bold | italic | underline
  | color (c : Color)
  | bgColor (c : Color)
  | rgb (r g b : Nat)
  | onRgb (r g b : Nat)
  deriving DecidableEq, Repr

/-- The blanket `impl<T: AsRef<str>> Colorize for T`, instantiated at a
string receiver: each method body as written in the source. -/
def applyColorize : COp → String → ColoredString
  | .red, t => red t
  | .green, t => green t
  | .blue, t => blue t
  | .yellow, t => yellow t
  | .magenta, t => magenta t
  | .cyan, t => cyan t
  | .white, t => white t
  | .black, t => black t
  | .bold, t => Style.paint (Style.bold' Style.new) t
  | .italic, t => Style.paint (Style.italic' Style.new) t
  | .underline, t => Style.paint (Style.underline' Style.new) t
  | .color c, t => Style.paint (Style.fg Style.new c) t
  | .bgColor c, t => Style.paint (Style.bg Style.new c) t
  | .rgb r g b, t => Style.paint (Style.fg_rgb Style.new r g b) t
  | .onRgb r g b, t => Style.paint (Style.bg_rgb Style.new r g b) t

/-- The blanket `Colorize` impl instantiated at a `ColoredString`
receiver: it goes through `AsRef<str>`, i.e. through the raw text. -/
def applyColorizeCS (op : COp) (cs : ColoredString) : ColoredString :=
  applyColorize op (ColoredString.as_ref cs)

/-- The spec-side meaning of one capability method: the default style
with exactly the one corresponding builder operation applied. -/
def singleOpStyle : COp → Style
  | .red => Style.fg Style.new Color.Red
  | .green => Style.fg Style.new Color.Green
  | .blue => Style.fg Style.new Color.Blue
  | .yellow => Style.fg Style.new Color.Yellow
  | .magenta => Style.fg Style.new Color.Magenta
  | .cyan => Style.fg Style.new Color.Cyan
  | .white => Style.fg Style.new Color.White
  | .black => Style.fg Style.new Color.Black
  | .bold => Style.bold' Style.new
  | .italic => Style.italic' Style.new
  | .underline => Style.underline' Style.new
  | .color c => Style.fg Style.new c
  | .bgColor c => Style.bg Style.new c
  | .rgb r g b => Style.fg_rgb Style.new r g b
  | .onRgb r g b => Style.bg_rgb Style.new r g b

/-- Spec-side fragment list for C1, written from the spec's seven-step
description: named foreground code, `38;2;R;G;B`, named background
code, `48;2;R;G;B`, `1` for bold, `3` for italic, `4` for underline. -/
def specFragments (s : Style) : List String :=
  (s.fg_color.map fun c => toString (Color.fg_code c)).toList ++
  (s.fg_rgb_color.map fun c =>
    "38;2;" ++ toString c.r ++ ";" ++ toString c.g ++ ";" ++ toString c.b).toList ++
  (s.bg_color.map fun c => toString (Color.bg_code c)).toList ++
  (s.bg_rgb_color.map fun c =>
    "48;2;" ++ toString c.r ++ ";" ++ toString c.g ++ ";" ++ toString c.b).toList ++
  (if s.bold then ["1"] else []) ++
  (if s.italic then ["3"] else []) ++
  (if s.underline then ["4"] else [])

/-- Spec-side wrapping for C1: empty string on an empty fragment list,
otherwise the fragments joined with `;` between the byte 0x1B, `[` and
`m`. -/
def specWrap (frags : List String) : String :=
  if frags = [] then ""
  else String.singleton (Char.ofNat 0x1B) ++ "[" ++ String.intercalate ";" frags ++ "m"

/-- Two successive calls of the renderer on the same value. -/
def renderTwice (cs : ColoredString) : String × String :=
  (ColoredString.render cs, ColoredString.render cs)

/-- Classifies the eight `Bright*` variants. -/
def Color.isBright : Color → Bool
  | .BrightBlack | .BrightRed | .BrightGreen | .BrightYellow
  | .BrightBlue | .BrightMagenta | .BrightCyan | .BrightWhite => true
  | _ => false

lemma codes_eq_specFragments (s : Style) : Style.codes s = specFragments s := by
  rcases s with ⟨fg, bg, fgr, bgr, bo, it, un⟩
  cases fg <;> cases bg <;> cases fgr <;> cases bgr <;> rfl

lemma chanOk_applyOp (s : Style) (op : Op) (h : chanOk s) : chanOk (applyOp s op) := by
  cases op <;>
    simp_all [applyOp, chanOk, Style.fg, Style.bg, Style.fg_rgb, Style.bg_rgb,
      Style.bold', Style.italic', Style.underline']

lemma chanOk_applyOps (ops : List Op) (s : Style) (h : chanOk s) :
    chanOk (applyOps s ops) := by
  induction ops generalizing s with
  | nil => exact h
  | cons op ops ih => exact ih (applyOp s op) (chanOk_applyOp s op h)

/-- C1: `format_prefix` emits the fragments of every `Style` — raw
field states with both a named and an RGB color for the same channel
included — in the fixed order named fg, RGB fg `38;2;R;G;B`, named bg,
RGB bg `48;2;R;G;B`, `1`, `3`, `4`; an empty fragment list yields the
empty string, and otherwise the fragments are joined with `;` and
wrapped between the byte 0x1B, `[` and `m`, byte for byte. -/
theorem format_prefix_byte_exact (s : Style) :
    Style.format_prefix s = specWrap (specFragments s) := by
  rw [ Style.format_prefix, specWrap, codes_eq_specFragments]
  cases specFragments s <;> simp [List.isEmpty, escChar]

/-- C2: rendering a `ColoredString` yields the raw text exactly when
the style's escape sequence is empty, and otherwise the text wrapped
between that sequence and the reset suffix `ESC [ 0 m`; the suffix
appears exactly in the non-empty case. -/
theorem render_wraps_text (cs : ColoredString) :
    ColoredString.render cs =
      (if Style.format_prefix cs.style = "" then cs.text
       else Style.format_prefix cs.style ++ cs.text ++ Style.format_suffix)
  ∧ Style.format_suffix = String.singleton (Char.ofNat 0x1B) ++ "[0m" := by
  refine ⟨?_, rfl⟩
  rw [ColoredString.render]
  by_cases h : Style.format_prefix cs.style = "" <;>
    simp [h, String.isEmpty_iff]

/-- C3: every `Style` reachable from the default one by a finite
sequence of builder operations never stores a named and an RGB color
for the same channel simultaneously. -/
theorem reachable_styles_chanOk (ops : List Op) :
    chanOk (applyOps Style.new ops) := by
  refine chanOk_applyOps ops Style.new ?_
  exact ⟨Or.inl rfl, Or.inl rfl⟩

/-- C4: last write wins on the foreground channel — `fg` then `fg_rgb`
leaves exactly the RGB fragment (and no named code) in the foreground
part of the prefix, and `fg_rgb` then `fg` leaves exactly the named
code (and no RGB fragment), on every starting `Style`, both as stored
fields and in the emitted prefix. -/
theorem fg_last_write_wins (s : Style) (c : Color) (r g b : Nat) :
    Style.codes (Style.fg_rgb (Style.fg s c) r g b)
      = rgbFgFrag (RgbColor.new r g b) :: Style.restCodes s
  ∧ (Style.fg_rgb (Style.fg s c) r g b).fg_color = none
  ∧ (Style.fg_rgb (Style.fg s c) r g b).fg_rgb_color = some (RgbColor.new r g b)
  ∧ Style.format_prefix (Style.fg_rgb (Style.fg s c) r g b)
      = String.singleton escChar ++ "["
        ++ String.intercalate ";" (rgbFgFrag (RgbColor.new r g b) :: Style.restCodes s) ++ "m"
  ∧ Style.codes (Style.fg (Style.fg_rgb s r g b) c)
      = toString (Color.fg_code c) :: Style.restCodes s
  ∧ (Style.fg (Style.fg_rgb s r g b) c).fg_rgb_color = none
  ∧ (Style.fg (Style.fg_rgb s r g b) c).fg_color = some c
  ∧ Style.format_prefix (Style.fg (Style.fg_rgb s r g b) c)
      = String.singleton escChar ++ "["
        ++ String.intercalate ";" (toString (Color.fg_code c) :: Style.restCodes s) ++ "m" :=
  ⟨rfl, rfl, rfl, rfl, rfl, rfl, rfl, rfl⟩

/-- C5: the named-color lookups are total on all 16 variants, the
foreground codes are 30–37 for the standard colors and 90–97 for the
bright ones, the background codes 40–47 and 100–107, with `Red ↦ 31`
and `Black ↦ 40` as the sampled values. -/
theorem color_code_lookup_total :
    (∀ c : Color, if Color.isBright c
      then 90 ≤ Color.fg_code c ∧ Color.fg_code c ≤ 97
      else 30 ≤ Color.fg_code c ∧ Color.fg_code c ≤ 37)
  ∧ (∀ c : Color, if Color.isBright c
      then 100 ≤ Color.bg_code c ∧ Color.bg_code c ≤ 107
      else 40 ≤ Color.bg_code c ∧ Color.bg_code c ≤ 47)
  ∧ Color.fg_code Color.Red = 31
  ∧ Color.bg_code Color.Black = 40 := by
  refine ⟨fun c => ?_, fun c => ?_, rfl, rfl⟩ <;> cases c <;> simp [Color.isBright] <;> decide

/-- C6: the default all-empty, all-false `Style` has an empty escape
sequence, and binding it to any text renders exactly that text with
nothing added — no escape sequence and no reset suffix. -/
theorem default_style_renders_plain (t : String) :
    Style.format_prefix Style.default = ""
  ∧ Style.format_prefix Style.new = ""
  ∧ ColoredString.render (Style.paint Style.default t) = t
  ∧ ColoredString.render (Style.paint Style.new t) = t :=
  ⟨rfl, rfl, rfl, rfl⟩

/-- C7: each convenience free function and each `Colorize` capability
method equals a default `Style` with the one corresponding operation
applied, bound to the given text; and `red "This is red text"` renders
to the exact bytes `ESC [ 3 1 m This is red text ESC [ 0 m`. -/
theorem convenience_matches_builder (t : String) (r g b : Nat) (op : COp) :
    red t = Style.paint (Style.fg Style.new Color.Red) t
  ∧ green t = Style.paint (Style.fg Style.new Color.Green) t
  ∧ blue t = Style.paint (Style.fg Style.new Color.Blue) t
  ∧ yellow t = Style.paint (Style.fg Style.new Color.Yellow) t
  ∧ magenta t = Style.paint (Style.fg Style.new Color.Magenta) t
  ∧ cyan t = Style.paint (Style.fg Style.new Color.Cyan) t
  ∧ white t = Style.paint (Style.fg Style.new Color.White) t
  ∧ black t = Style.paint (Style.fg Style.new Color.Black) t
  ∧ rgb r g b t = Style.paint (Style.fg_rgb Style.new r g b) t
  ∧ on_rgb r g b t = Style.paint (Style.bg_rgb Style.new r g b) t
  ∧ applyColorize op t = Style.paint (singleOpStyle op) t
  ∧ ColoredString.render (red "This is red text")
      = "\x1b[31mThis is red text\x1b[0m" := by
  refine ⟨rfl, rfl, rfl, rfl, rfl, rfl, rfl, rfl, rfl, rfl, ?_, by decide⟩
  cases op <;> rfl

/-- C8: two builder operations that write different channels commute
on every `Style`; only same-channel pairs (the named/RGB conflicts and
repeated writes) are excluded. -/
theorem independent_ops_commute (o1 o2 : Op) (s : Style)
    (h : Op.chan o1 ≠ Op.chan o2) :
    applyOp (applyOp s o1) o2 = applyOp (applyOp s o2) o1 := by
  cases o1 <;> cases o2 <;> first
    | rfl
    | exact absurd rfl h

/-- Witness for C8: bold and italic target different channels and
commute on the default `Style`. -/
theorem independent_ops_commute_witness :
    Op.chan Op.bold ≠ Op.chan Op.italic
  ∧ applyOp (applyOp Style.new Op.bold) Op.italic
      = applyOp (applyOp Style.new Op.italic) Op.bold :=
  ⟨by decide, independent_ops_commute Op.bold Op.italic Style.new (by decide)⟩

/-- C9: rendering is pure and deterministic — any two renderings of
the same `ColoredString` value are equal, and the bound text and style
are untouched (re-binding them reproduces the value). -/
theorem render_pure_deterministic (cs : ColoredString) (s1 s2 : String)
    (h1 : s1 = ColoredString.render cs) (h2 : s2 = ColoredString.render cs) :
    s1 = s2
  ∧ renderTwice cs = (s1, s2)
  ∧ Style.paint cs.style cs.text = cs := by
  subst h1; subst h2
  exact ⟨rfl, rfl, rfl⟩

/-- Witness for C9 at the concrete value `red "a"`. -/
theorem render_pure_deterministic_witness :
    ColoredString.render (red "a") = ColoredString.render (red "a")
  ∧ renderTwice (red "a")
      = (ColoredString.render (red "a"), ColoredString.render (red "a"))
  ∧ Style.paint (red "a").style (red "a").text = red "a" :=
  render_pure_deterministic (red "a")
    (ColoredString.render (red "a")) (ColoredString.render (red "a")) rfl rfl

/-- C10: the text view of a `ColoredString` is the raw bound text, so
any capability method (and `paint`) applied to an already-styled value
discards the old style and styles the raw text with only the new
single attribute. -/
theorem as_ref_discards_old_style (op : COp) (cs : ColoredString) (st : Style) :
    ColoredString.as_ref cs = cs.text
  ∧ applyColorizeCS op cs = applyColorize op cs.text
  ∧ (applyColorizeCS op cs).text = cs.text
  ∧ (applyColorizeCS op cs).style = singleOpStyle op
  ∧ Style.paint st (ColoredString.as_ref cs) = Style.paint st cs.text := by
  refine ⟨rfl, rfl, ?_, ?_, rfl⟩ <;> cases op <;> rfl

end Whitelight
